import Mathlib

/-!
Verification of the table-overwrite / read-back workflow of
`create_table_buckets.py` (Apache Iceberg table operations script).

The script itself is sequential glue code: it resolves an AWS account id,
connects to a REST catalog, defines a six-field customer schema, creates the
table if absent, loads it, overwrites it with a single record, and reads the
table back.  The table-format engine (overwrite commit, scan) and the columnar
schema validation are external collaborators; their contracts are modelled
from the specification.  The control flow of the script, its schema constant,
and its catch-and-print error handling are embedded directly from the source.
-/

namespace S3TableBuckets

/-! ## Data model -/

/-- A primitive field type: `pa.string()` or `pa.int32()`. -/
inductive PType where
  | string
  | int32
deriving DecidableEq, Repr

/-- A named, typed field, as built by `pa.field(name, type)`. -/
structure Field where
  name : String
  typ : PType
deriving DecidableEq, Repr

/-- A schema is an ordered sequence of named, typed fields (`pa.schema [...]`). -/
abbrev Schema := List Field

/-- A value carried by a record: a string, an integer, or null. -/
inductive Value where
  | str (s : String)
  | int (n : Int)
  | null
deriving DecidableEq, Repr

/-- A record is a mapping from field name to value (a Python dict row). -/
abbrev Record := List (String × Value)

/-- A batch of records sharing one schema (the `data` list of dicts). -/
abbrev RecordBatch := List Record

/-! ## The customer schema (`create_customer_schema`, lines 52-63) -/

/-- Embeds `create_customer_schema`: the six-field PyArrow schema of the
customer table, in source order. -/
def create_customer_schema : Schema :=
  [ ⟨"c_salutation", PType.string⟩,
    ⟨"c_preferred_cust_flag", PType.string⟩,
    ⟨"c_first_sales_date_sk", PType.int32⟩,
    ⟨"c_customer_sk", PType.int32⟩,
    ⟨"c_first_name", PType.string⟩,
    ⟨"c_email_address", PType.string⟩ ]

/-! ## Schema conformance

Modelled from the spec: the columnar construction `pa.Table.from_pylist(data,
schema=schema)` performed by the external library is abstracted by the spec's
conformance rule — "A record must supply a value (possibly null) for every
field in the schema; extra keys are rejected", with values type-compatible
with the declared primitive type. -/

/-- A value conforms to a primitive type when it is null, a string for a
string field, or a 32-bit-representable integer for an int32 field. -/
def valueConforms : Value → PType → Bool
  | Value.null, _ => true
  | Value.str _, PType.string => true
  | Value.int n, PType.int32 => decide (-(2 ^ 31) ≤ n) && decide (n < 2 ^ 31)
  | _, _ => false

/-- A record conforms to a schema when it supplies a conforming value for
every declared field and carries no extra undeclared key. -/
def recordConforms (r : Record) (s : Schema) : Bool :=
  (s.all fun f =>
    match r.lookup f.name with
    | some v => valueConforms v f.typ
    | none => false) &&
  (r.all fun kv => s.any fun f => f.name == kv.1)

/-- A batch conforms to a schema when every record in it conforms. -/
def batchConforms (b : RecordBatch) (s : Schema) : Bool :=
  b.all fun r => recordConforms r s

/-! ## The table engine

Modelled from the spec: the external table-format engine behind
`table.overwrite` and `table.scan` — an atomic replace that fails with
`SchemaMismatchError` on a non-conforming batch, `WriteConflictError` on a
concurrent-modification conflict, and `TransportError` on a lower-level
communication failure, and a full scan returning the current snapshot. -/

/-- The state of the persistent table behind a handle: its stored schema and
its current row content. -/
structure TableState where
  schema : Schema
  rows : RecordBatch
deriving DecidableEq, Repr

/-- The distinguishable kinds of overwrite failure. -/
inductive OverwriteError where
  | schemaMismatch
  | writeConflict
  | transport
deriving DecidableEq, Repr

/-- A transient engine-side fault that an overwrite commit may hit. -/
inductive EngineFault where
  | conflict
  | transport
deriving DecidableEq, Repr

/-- Modelled from the spec: the engine's atomic overwrite.  The typed columnar
representation of the batch is constructed first, so a non-conforming batch
fails with `schemaMismatch` before any replace is issued; otherwise the
commit either hits the given transient fault or atomically replaces the
table's entire content with the batch. -/
def engineOverwrite (fault : Option EngineFault) (t : TableState)
    (b : RecordBatch) (s : Schema) : Except OverwriteError TableState :=
  if batchConforms b s then
    match fault with
    | none => Except.ok ⟨s, b⟩
    | some EngineFault.conflict => Except.error OverwriteError.writeConflict
    | some EngineFault.transport => Except.error OverwriteError.transport
  else
    Except.error OverwriteError.schemaMismatch

/-- Modelled from the spec: the full scan — materializes the table's current
snapshot as a finite sequence of records. -/
def readAll (t : TableState) : RecordBatch := t.rows

/-! ## The source wrappers (`overwrite_data`, `read_table_data`)

Both functions wrap the engine call in `try/except Exception`, print a
diagnostic on failure, and fall off the end (returning `None`) on success and
failure alike. -/

/-- The outcome of a Python call as seen by its caller: a normal return value,
or a propagated exception. -/
inductive Outcome (α : Type) where
  | returns (v : α)
  | raises (e : OverwriteError)
deriving DecidableEq, Repr

/-- Embeds `overwrite_data` (lines 86-93): builds the typed table and issues
the overwrite inside `try/except`; any failure is caught and printed, and the
function returns `None` either way.  The first component is the table state
the caller's handle refers to after the call. -/
def overwrite_data (fault : Option EngineFault) (t : TableState)
    (data : RecordBatch) (s : Schema) : TableState × Outcome Unit :=
  match engineOverwrite fault t data s with
  | Except.ok t' => (t', Outcome.returns ())
  | Except.error _ => (t, Outcome.returns ())

/-- Embeds `read_table_data` (lines 96-104): scans the table inside
`try/except`, printing either the data or the error, and returns `None` either
way.  The first component is what was printed: the scanned rows on success,
`none` when the scan failed. -/
def read_table_data (scanOk : Bool) (t : TableState) :
    Option RecordBatch × Outcome Unit :=
  if scanOk then (some (readAll t), Outcome.returns ())
  else (none, Outcome.returns ())

/-! ## Create-if-not-exists (`create_table_if_not_exists`, lines 66-72)

The catalog's create semantics are modelled from the spec: creating an absent
table yields an empty table; creating a table that already exists raises
`TableAlreadyExistsError`, which the source catches and logs. -/

/-- Embeds `create_table_if_not_exists` over the catalog's state for this
identifier (`some rows` when the table exists with content `rows`, `none`
when absent).  An already-existing table makes `catalog.create_table` raise;
the source catches the exception, prints a note, and leaves the table's
content untouched.  Returns `None` either way. -/
def create_table_if_not_exists (existing : Option RecordBatch) :
    Option RecordBatch × Outcome Unit :=
  match existing with
  | some rows => (some rows, Outcome.returns ())
  | none => (some [], Outcome.returns ())

/-! ## The example data of `main` (lines 126-155) -/

/-- Embeds `initial_data`: the two Donald/Daisy example rows.  Constructed in
`main` but never passed to any write. -/
def initial_data : RecordBatch :=
  [ [ ("c_salutation", Value.str "Mr"),
      ("c_preferred_cust_flag", Value.str "Y"),
      ("c_first_sales_date_sk", Value.int 2452737),
      ("c_customer_sk", Value.int 1235),
      ("c_first_name", Value.str "Donald"),
      ("c_email_address", Value.str "donald@email.com") ],
    [ ("c_salutation", Value.str "Mrs"),
      ("c_preferred_cust_flag", Value.str "N"),
      ("c_first_sales_date_sk", Value.int 2452738),
      ("c_customer_sk", Value.int 1236),
      ("c_first_name", Value.str "Daisy"),
      ("c_email_address", Value.str "daisy@email.com") ] ]

/-- Embeds `new_data`: the single Scrooge row passed to `overwrite_data`. -/
def new_data : RecordBatch :=
  [ [ ("c_salutation", Value.str "Dr"),
      ("c_preferred_cust_flag", Value.str "Y"),
      ("c_first_sales_date_sk", Value.int 2452739),
      ("c_customer_sk", Value.int 1237),
      ("c_first_name", Value.str "Scrooge"),
      ("c_email_address", Value.str "scrooge@email.com") ] ]

/-! ## The main workflow (`main`, lines 107-161) -/

/-- One collaborator operation issued by `main`, in the order the source can
issue them. -/
inductive Op where
  | getIdentity
  | connectCatalog
  | createTable (schema : Schema)
  | loadTable
  | overwriteOp (batch : RecordBatch) (schema : Schema)
  | scanOp
deriving DecidableEq, Repr

/-- Recognizes the identity-lookup operation. -/
def Op.isIdentity : Op → Bool
  | Op.getIdentity => true
  | _ => false

/-- Recognizes the catalog-connect operation. -/
def Op.isConnect : Op → Bool
  | Op.connectCatalog => true
  | _ => false

/-- Recognizes the create-table operation. -/
def Op.isCreate : Op → Bool
  | Op.createTable _ => true
  | _ => false

/-- Recognizes the load-table operation. -/
def Op.isLoad : Op → Bool
  | Op.loadTable => true
  | _ => false

/-- Recognizes the overwrite operation. -/
def Op.isOverwrite : Op → Bool
  | Op.overwriteOp _ _ => true
  | _ => false

/-- Recognizes the scan operation. -/
def Op.isScan : Op → Bool
  | Op.scanOp => true
  | _ => false

/-- The outcomes of the external collaborators during one run: the STS
identity result, whether the catalog load succeeds, whether the table already
exists (making `create_table` raise), whether the table load succeeds, the
transient fault (if any) hit by the overwrite commit, and whether the scan
succeeds. -/
structure Env where
  accountId : Option String
  catalogOk : Bool
  tableExists : Bool
  loadOk : Bool
  overwriteFault : Option EngineFault
  scanOk : Bool

/-- Python truthiness of `get_aws_account_id`'s result: `if not account_id`
fires on `None` and on the empty string. -/
def accountFalsy : Option String → Bool
  | none => true
  | some s => s.isEmpty

/-- Embeds the control flow of `main`: the sequence of collaborator
operations issued during one run under the given environment.  `exit()` after
a falsy account id, a missing catalog, or a failed table load cuts the trace
short; a create failure is swallowed and an overwrite failure does not stop
the subsequent read. -/
def mainTrace (env : Env) : List Op :=
  if accountFalsy env.accountId then
    [Op.getIdentity]
  else if !env.catalogOk then
    [Op.getIdentity, Op.connectCatalog]
  else if !env.loadOk then
    [Op.getIdentity, Op.connectCatalog, Op.createTable create_customer_schema,
     Op.loadTable]
  else
    [Op.getIdentity, Op.connectCatalog, Op.createTable create_customer_schema,
     Op.loadTable, Op.overwriteOp new_data create_customer_schema, Op.scanOp]

/-- The batch passed to `overwrite_data` that carries the Scrooge record plus
the extra undeclared field `c_unexpected` (the spec's second concrete
scenario). -/
def unexpected_field_batch : RecordBatch :=
  [ [ ("c_salutation", Value.str "Dr"),
      ("c_preferred_cust_flag", Value.str "Y"),
      ("c_first_sales_date_sk", Value.int 2452739),
      ("c_customer_sk", Value.int 1237),
      ("c_first_name", Value.str "Scrooge"),
      ("c_email_address", Value.str "scrooge@email.com"),
      ("c_unexpected", Value.str "surprise") ] ]

/-! ## Theorems -/

/-- C1: for every record batch conforming to the schema, a fault-free
overwrite succeeds and replaces the table's entire content with the batch, and
after any successful overwrite `readAll` returns exactly the batch — in
particular every remaining record comes from the batch, so nothing from any
previously written batch remains. -/
theorem c1_overwrite_then_readAll (t : TableState) (b : RecordBatch)
    (s : Schema) (hconf : batchConforms b s = true) :
    engineOverwrite none t b s = Except.ok ⟨s, b⟩ ∧
    (∀ (fault : Option EngineFault) (t' : TableState),
      engineOverwrite fault t b s = Except.ok t' →
        readAll t' = b ∧ ∀ r ∈ readAll t', r ∈ b) := by
  refine ⟨by simp [engineOverwrite, hconf], ?_⟩
  intro fault t' h
  cases fault with
  | none =>
    simp [engineOverwrite, hconf] at h
    subst h
    exact ⟨rfl, fun r hr => hr⟩
  | some f =>
    cases f <;> simp [engineOverwrite, hconf] at h

/-- C1 witness: overwriting a table holding the Donald/Daisy rows with the
single Scrooge batch succeeds, and `readAll` then returns exactly that one
record — the Donald row is gone. -/
theorem c1_overwrite_then_readAll_witness :
    engineOverwrite none ⟨create_customer_schema, initial_data⟩ new_data
        create_customer_schema
      = Except.ok ⟨create_customer_schema, new_data⟩ ∧
    readAll ⟨create_customer_schema, new_data⟩ = new_data ∧
    initial_data.headD [] ∉ readAll ⟨create_customer_schema, new_data⟩ := by
  have h := c1_overwrite_then_readAll ⟨create_customer_schema, initial_data⟩
    new_data create_customer_schema (by decide)
  exact ⟨h.1, (h.2 none ⟨create_customer_schema, new_data⟩ h.1).1, by decide⟩

/-- C2: for every batch that does not conform to the schema — a record
missing a declared field, one with a wrongly-typed value, or one carrying an
extra undeclared key — the overwrite fails with `schemaMismatch` whatever the
engine fault, the table the caller holds after `overwrite_data` is unchanged,
and a subsequent successful read returns the prior content. -/
theorem c2_nonconforming_overwrite_rejected (fault : Option EngineFault)
    (t : TableState) (b : RecordBatch) (s : Schema)
    (hbad : batchConforms b s = false) :
    engineOverwrite fault t b s = Except.error OverwriteError.schemaMismatch ∧
    (overwrite_data fault t b s).1 = t ∧
    (read_table_data true (overwrite_data fault t b s).1).1 = some t.rows := by
  have he : engineOverwrite fault t b s
      = Except.error OverwriteError.schemaMismatch := by
    simp [engineOverwrite, hbad]
  refine ⟨he, ?_, ?_⟩ <;> simp [overwrite_data, he, read_table_data, readAll]

/-- C2 witness: the batch carrying the extra undeclared field `c_unexpected`
does not conform, the overwrite on a table holding the Donald/Daisy rows fails
with `schemaMismatch`, and reading afterwards returns the prior rows. -/
theorem c2_nonconforming_overwrite_rejected_witness :
    batchConforms unexpected_field_batch create_customer_schema = false ∧
    engineOverwrite none ⟨create_customer_schema, initial_data⟩
        unexpected_field_batch create_customer_schema
      = Except.error OverwriteError.schemaMismatch ∧
    (read_table_data true
        (overwrite_data none ⟨create_customer_schema, initial_data⟩
          unexpected_field_batch create_customer_schema).1).1
      = some initial_data := by
  have h := c2_nonconforming_overwrite_rejected none
    ⟨create_customer_schema, initial_data⟩ unexpected_field_batch
    create_customer_schema (by decide)
  exact ⟨by decide, h.1, by rw [h.2.1]; simp [read_table_data, readAll]⟩

/-- C3: every overwrite failure is one of three distinguishable kinds —
`schemaMismatch` exactly when the batch does not conform, `writeConflict`
exactly on a concurrent-modification fault of a conforming commit, and
`transport` exactly on a communication fault of a conforming commit — and the
three kinds are pairwise distinct, so a caller can decide to retry or abort. -/
theorem c3_failures_distinguishable (fault : Option EngineFault)
    (t : TableState) (b : RecordBatch) (s : Schema) (e : OverwriteError)
    (h : engineOverwrite fault t b s = Except.error e) :
    (e = OverwriteError.schemaMismatch ∨ e = OverwriteError.writeConflict ∨
      e = OverwriteError.transport) ∧
    (e = OverwriteError.schemaMismatch ↔ batchConforms b s = false) ∧
    (e = OverwriteError.writeConflict ↔
      batchConforms b s = true ∧ fault = some EngineFault.conflict) ∧
    (e = OverwriteError.transport ↔
      batchConforms b s = true ∧ fault = some EngineFault.transport) ∧
    OverwriteError.schemaMismatch ≠ OverwriteError.writeConflict ∧
    OverwriteError.schemaMismatch ≠ OverwriteError.transport ∧
    OverwriteError.writeConflict ≠ OverwriteError.transport := by
  cases hc : batchConforms b s with
  | false =>
    simp [engineOverwrite, hc] at h
    subst h
    simp
  | true =>
    cases fault with
    | none => simp [engineOverwrite, hc] at h
    | some f =>
      cases f <;> simp [engineOverwrite, hc] at h <;> subst h <;> simp

/-- C3 witness: a conforming Scrooge overwrite hitting a concurrent
modification fails with `writeConflict`, a kind distinct from
`schemaMismatch`. -/
theorem c3_failures_distinguishable_witness :
    engineOverwrite (some EngineFault.conflict)
        ⟨create_customer_schema, initial_data⟩ new_data create_customer_schema
      = Except.error OverwriteError.writeConflict ∧
    OverwriteError.writeConflict ≠ OverwriteError.schemaMismatch := by
  have he : engineOverwrite (some EngineFault.conflict)
      ⟨create_customer_schema, initial_data⟩ new_data create_customer_schema
      = Except.error OverwriteError.writeConflict := by rfl
  have h := c3_failures_distinguishable (some EngineFault.conflict)
    ⟨create_customer_schema, initial_data⟩ new_data create_customer_schema
    OverwriteError.writeConflict he
  exact ⟨he, fun hk => absurd hk.symm h.2.2.2.2.1⟩

/-- C4: on any unrecoverable collaborator failure the run stops immediately —
a falsy account id ends the trace right after the identity lookup, a failed
catalog load right after the connect, and a failed table load right after the
load attempt; in particular no overwrite and no scan is ever issued after a
failed table load. -/
theorem c4_early_exit_on_collaborator_failure (env : Env) :
    (accountFalsy env.accountId = true →
      mainTrace env = [Op.getIdentity]) ∧
    (accountFalsy env.accountId = false → env.catalogOk = false →
      mainTrace env = [Op.getIdentity, Op.connectCatalog]) ∧
    (accountFalsy env.accountId = false → env.catalogOk = true →
      env.loadOk = false →
      mainTrace env = [Op.getIdentity, Op.connectCatalog,
        Op.createTable create_customer_schema, Op.loadTable]) ∧
    (env.loadOk = false →
      (∀ b s, Op.overwriteOp b s ∉ mainTrace env) ∧
      Op.scanOp ∉ mainTrace env) := by
  refine ⟨fun h1 => by simp [mainTrace, h1], fun h1 h2 => by
      simp [mainTrace, h1, h2], fun h1 h2 h3 => by
      simp [mainTrace, h1, h2, h3], fun h3 => ?_⟩
  cases h1 : accountFalsy env.accountId <;>
    cases h2 : env.catalogOk <;>
      simp [mainTrace, h1, h2, h3]

/-- C4 witness: with identity and catalog available but the table load
failing, the trace stops at the load and contains no overwrite and no scan. -/
theorem c4_early_exit_on_collaborator_failure_witness :
    mainTrace ⟨some "123456789012", true, true, false, none, true⟩
      = [Op.getIdentity, Op.connectCatalog,
         Op.createTable create_customer_schema, Op.loadTable] ∧
    Op.scanOp ∉ mainTrace ⟨some "123456789012", true, true, false, none, true⟩ := by
  have h := c4_early_exit_on_collaborator_failure
    ⟨some "123456789012", true, true, false, none, true⟩
  exact ⟨h.2.2.1 (by decide) rfl rfl, (h.2.2.2 rfl).2⟩

/-- C5: an already-existing table makes the create step benign — the call
returns normally with the existing rows untouched, a second create on the
resulting catalog state is equally safe and leaves it unchanged, and the
workflow continues past the create step to the table load. -/
theorem c5_create_already_exists_benign (rows : RecordBatch) (env : Env)
    (hex : env.tableExists = true) :
    create_table_if_not_exists (some rows) = (some rows, Outcome.returns ()) ∧
    (∀ ex : Option RecordBatch,
      create_table_if_not_exists (create_table_if_not_exists ex).1
        = ((create_table_if_not_exists ex).1, Outcome.returns ())) ∧
    (Op.createTable create_customer_schema ∈ mainTrace env →
      Op.loadTable ∈ mainTrace env) := by
  refine ⟨rfl, fun ex => by cases ex <;> rfl, fun hc => ?_⟩
  cases h1 : accountFalsy env.accountId <;>
    cases h2 : env.catalogOk <;>
      cases h3 : env.loadOk <;>
        simp [mainTrace, h1, h2, h3] at hc ⊢

/-- C5 witness: creating the table a second time over the Donald/Daisy rows
returns normally and keeps them, and the run with an existing table still
reaches the table load. -/
theorem c5_create_already_exists_benign_witness :
    create_table_if_not_exists (some initial_data)
      = (some initial_data, Outcome.returns ()) ∧
    Op.loadTable ∈ mainTrace ⟨some "123456789012", true, true, true, none, true⟩ := by
  have h := c5_create_already_exists_benign initial_data
    ⟨some "123456789012", true, true, true, none, true⟩ rfl
  exact ⟨h.1, h.2.2 (by decide)⟩

/-- C6: the schema used for the table creation and for the only write of the
run is in every environment exactly `create_customer_schema`, which is the
ordered six-field sequence {c_salutation:string, c_preferred_cust_flag:string,
c_first_sales_date_sk:int32, c_customer_sk:int32, c_first_name:string,
c_email_address:string} with pairwise-distinct field names. -/
theorem c6_schema_exact (env : Env) :
    create_customer_schema =
      [ ⟨"c_salutation", PType.string⟩,
        ⟨"c_preferred_cust_flag", PType.string⟩,
        ⟨"c_first_sales_date_sk", PType.int32⟩,
        ⟨"c_customer_sk", PType.int32⟩,
        ⟨"c_first_name", PType.string⟩,
        ⟨"c_email_address", PType.string⟩ ] ∧
    (create_customer_schema.map Field.name).Nodup ∧
    (∀ s, Op.createTable s ∈ mainTrace env → s = create_customer_schema) ∧
    (∀ b s, Op.overwriteOp b s ∈ mainTrace env → s = create_customer_schema) := by
  refine ⟨rfl, by decide, ?_, ?_⟩
  · intro s hmem
    cases h1 : accountFalsy env.accountId <;>
      cases h2 : env.catalogOk <;>
        cases h3 : env.loadOk <;>
          simp [mainTrace, h1, h2, h3] at hmem <;> exact hmem
  · intro b s hmem
    cases h1 : accountFalsy env.accountId <;>
      cases h2 : env.catalogOk <;>
        cases h3 : env.loadOk <;>
          simp [mainTrace, h1, h2, h3] at hmem <;> exact hmem.2

/-- C6 witness: the schema constant equals the six-field literal and its
field names are pairwise distinct, instantiating the theorem at a fully
successful environment. -/
theorem c6_schema_exact_witness :
    create_customer_schema =
      [ ⟨"c_salutation", PType.string⟩,
        ⟨"c_preferred_cust_flag", PType.string⟩,
        ⟨"c_first_sales_date_sk", PType.int32⟩,
        ⟨"c_customer_sk", PType.int32⟩,
        ⟨"c_first_name", PType.string⟩,
        ⟨"c_email_address", PType.string⟩ ] ∧
    (create_customer_schema.map Field.name).Nodup := by
  have h := c6_schema_exact ⟨some "123456789012", true, true, true, none, true⟩
  exact ⟨h.1, h.2.1⟩

/-- C7: in one run no collaborator operation is retried — each of the six
operation kinds (identity lookup, catalog connect, create, load, overwrite,
scan) appears at most once in the trace, in every environment, so a failed
overwrite is in particular never re-issued. -/
theorem c7_no_operation_retried (env : Env) :
    (mainTrace env).countP Op.isIdentity ≤ 1 ∧
    (mainTrace env).countP Op.isConnect ≤ 1 ∧
    (mainTrace env).countP Op.isCreate ≤ 1 ∧
    (mainTrace env).countP Op.isLoad ≤ 1 ∧
    (mainTrace env).countP Op.isOverwrite ≤ 1 ∧
    (mainTrace env).countP Op.isScan ≤ 1 := by
  cases h1 : accountFalsy env.accountId <;>
    cases h2 : env.catalogOk <;>
      cases h3 : env.loadOk <;>
        simp [mainTrace, h1, h2, h3] <;> decide

/-- C8: `overwrite_data` and `read_table_data` are total and never propagate
an exception — for every input, engine fault included, both return `None`
(`Outcome.returns ()`), and the value returned to the caller is the same on
success and on failure, so the caller cannot distinguish the two outcomes
from it. -/
theorem c8_wrappers_swallow_exceptions (fault : Option EngineFault)
    (t : TableState) (data : RecordBatch) (s : Schema) (scanOk : Bool) :
    (overwrite_data fault t data s).2 = Outcome.returns () ∧
    (read_table_data scanOk t).2 = Outcome.returns () ∧
    (∀ fault2 t2 data2 s2,
      (overwrite_data fault t data s).2
        = (overwrite_data fault2 t2 data2 s2).2) ∧
    (∀ (scanOk2 : Bool) (t2 : TableState),
      (read_table_data scanOk t).2 = (read_table_data scanOk2 t2).2) := by
  have hov : ∀ (f : Option EngineFault) (t0 : TableState) (d : RecordBatch)
      (s0 : Schema), (overwrite_data f t0 d s0).2 = Outcome.returns () := by
    intro f t0 d s0
    cases h : engineOverwrite f t0 d s0 <;> simp [overwrite_data, h]
  have hrd : ∀ (ok : Bool) (t0 : TableState),
      (read_table_data ok t0).2 = Outcome.returns () := by
    intro ok t0
    cases ok <;> simp [read_table_data]
  exact ⟨hov fault t data s, hrd scanOk t,
    fun f2 t2 d2 s2 => (hov fault t data s).trans (hov f2 t2 d2 s2).symm,
    fun ok2 t2 => (hrd scanOk t).trans (hrd ok2 t2).symm⟩

/-- C9: every run that reaches the overwrite call also executes the read step
afterwards — whenever an overwrite appears in the trace, the trace is the full
six-operation sequence ending in the scan, and the trace does not depend on
whether the overwrite's commit succeeded or hit a fault. -/
theorem c9_read_after_failed_overwrite (env : Env) (b : RecordBatch)
    (s : Schema) (hmem : Op.overwriteOp b s ∈ mainTrace env) :
    mainTrace env = [Op.getIdentity, Op.connectCatalog,
      Op.createTable create_customer_schema, Op.loadTable,
      Op.overwriteOp new_data create_customer_schema, Op.scanOp] ∧
    Op.scanOp ∈ mainTrace env ∧
    (∀ f : Option EngineFault,
      mainTrace ⟨env.accountId, env.catalogOk, env.tableExists,
        env.loadOk, f, env.scanOk⟩ = mainTrace env) := by
  have htr : mainTrace env = [Op.getIdentity, Op.connectCatalog,
      Op.createTable create_customer_schema, Op.loadTable,
      Op.overwriteOp new_data create_customer_schema, Op.scanOp] := by
    cases h1 : accountFalsy env.accountId <;>
      cases h2 : env.catalogOk <;>
        cases h3 : env.loadOk <;>
          simp [mainTrace, h1, h2, h3] at hmem ⊢
  refine ⟨htr, by rw [htr]; simp, fun f => ?_⟩
  simp [mainTrace]

/-- C9 witness: in a run where the overwrite commit hits a transport fault,
the overwrite is in the trace and the scan is still executed. -/
theorem c9_read_after_failed_overwrite_witness :
    Op.scanOp ∈ mainTrace
      ⟨some "123456789012", true, true, true, some EngineFault.transport, true⟩ := by
  have h := c9_read_after_failed_overwrite
    ⟨some "123456789012", true, true, true, some EngineFault.transport, true⟩
    new_data create_customer_schema (by decide)
  exact h.2.1

/-- C10: in every environment the run issues at most one overwrite, every
overwrite it issues carries exactly the Scrooge batch `new_data` (never the
Donald/Daisy batch `initial_data`), and a run whose collaborators all succeed
issues exactly one overwrite. -/
theorem c10_single_overwrite_is_scrooge (env : Env) :
    (mainTrace env).countP Op.isOverwrite ≤ 1 ∧
    (∀ b s, Op.overwriteOp b s ∈ mainTrace env → b = new_data) ∧
    (∀ s, Op.overwriteOp initial_data s ∉ mainTrace env) ∧
    (accountFalsy env.accountId = false → env.catalogOk = true →
      env.loadOk = true → (mainTrace env).countP Op.isOverwrite = 1) := by
  have hone : ∀ b s, Op.overwriteOp b s ∈ mainTrace env → b = new_data := by
    intro b s hmem
    cases h1 : accountFalsy env.accountId <;>
      cases h2 : env.catalogOk <;>
        cases h3 : env.loadOk <;>
          simp [mainTrace, h1, h2, h3] at hmem <;> exact hmem.1
  refine ⟨?_, hone, fun s hmem => ?_, fun h1 h2 h3 => ?_⟩
  · cases h1 : accountFalsy env.accountId <;>
      cases h2 : env.catalogOk <;>
        cases h3 : env.loadOk <;>
          simp [mainTrace, h1, h2, h3] <;> decide
  · have hb := hone initial_data s hmem
    exact absurd hb (by decide)
  · simp [mainTrace, h1, h2, h3]
    decide

/-- C10 witness: in a fully successful run the trace contains exactly one
overwrite operation. -/
theorem c10_single_overwrite_is_scrooge_witness :
    (mainTrace ⟨some "123456789012", true, true, true, none, true⟩).countP
      Op.isOverwrite = 1 := by
  exact (c10_single_overwrite_is_scrooge
    ⟨some "123456789012", true, true, true, none, true⟩).2.2.2
    (by decide) rfl rfl

end S3TableBuckets
